import Mathlib

/-!
Verification of the wopibridge core (wopibridge.py and codimd.py) against its
natural-language specification.  Python dictionaries are embedded as
insertion-ordered association lists, machine integers as `Int`/`Nat`, fallible
code as `Except`, and the outcomes of outbound WOPI/app HTTP calls as explicit
oracle inputs, so that every branch of the source functions is represented.
-/

namespace WopiBridge

/-- Insertion-ordered association list modelling a Python `dict`. -/
abbrev Dict (α β : Type) := List (α × β)

/-- Python `d[k]` / `d.get(k)`: value of the first (unique) binding of `k`. -/
def dictGet [DecidableEq α] : Dict α β → α → Option β
  | [], _ => none
  | (k', v') :: rest, k => if k' = k then some v' else dictGet rest k

/-- Python `d[k] = v`: update the binding in place, else append at the end. -/
def dictSet [DecidableEq α] : Dict α β → α → β → Dict α β
  | [], k, v => [(k, v)]
  | (k', v') :: rest, k, v =>
    if k' = k then (k, v) :: rest else (k', v') :: dictSet rest k v

/-- Python `del d[k]`. -/
def dictDel [DecidableEq α] : Dict α β → α → Dict α β
  | [], _ => []
  | (k', v') :: rest, k =>
    if k' = k then dictDel rest k else (k', v') :: dictDel rest k

/-- Python `list(d.values())`, in insertion order. -/
def dictValues (d : Dict α β) : List β := d.map Prod.snd

/-- Python `acctok[-20:]`: the last 20 characters of an access token. -/
def shorttok (s : String) : String := ⟨(s.toList.reverse.take 20).reverse⟩

/-- Index of the last occurrence of `c` in `cs`, or `-1` (Python `str.rfind`). -/
def lastIdx (cs : List Char) (c : Char) : Int :=
  cs.enum.foldl (fun acc p => if p.2 = c then (p.1 : Int) else acc) (-1)

/-- Python `os.path.splitext`: split off the extension at the last dot of the
basename, unless every character between the last separator and that dot is a
dot (leading-dot files keep their name whole). -/
def splitext (p : String) : String × String :=
  let cs := p.toList
  let sep := lastIdx cs '/'
  let dot := lastIdx cs '.'
  if decide (sep < dot) && (List.range cs.length).any
      (fun i => decide (sep < (i : Int)) && decide ((i : Int) < dot) && (cs.getD i '.' != '.')) then
    (⟨cs.take dot.toNat⟩, ⟨cs.drop dot.toNat⟩)
  else (p, "")

/-! ### Configuration intervals (WB.init, wopibridge.py lines 96-103)

The source wraps `int(os.environ.get(VAR))` in `try/except TypeError`: when the
variable is unset, `os.environ.get` yields `None` and `int(None)` raises
`TypeError`, selecting the fallback branch; when it is set to an integer
string, the parsed value is assigned.  The environment is therefore modelled as
the parsed integer when set (`some n`) and `none` when unset. -/

structure Intervals where
  saveinterval : Int
  /-- `none` models the attribute never being assigned on the class. -/
  unlockinterval : Option Int
deriving DecidableEq, Repr

/-- WB.init interval configuration, wopibridge.py lines 96-103: the first
`try` assigns `cls.saveinterval` from `APP_SAVE_INTERVAL` (default 200); the
second `try` assigns `cls.saveinterval` — not `cls.unlockinterval` — from
`APP_UNLOCK_INTERVAL`, and only its `except TypeError` fallback ever assigns
`cls.unlockinterval = 90`. -/
def initIntervals (appSaveEnv appUnlockEnv : Option Int) : Intervals :=
  let s : Int := match appSaveEnv with
    | some n => n
    | none => 200
  match appUnlockEnv with
  | some n => { saveinterval := n, unlockinterval := none }
  | none => { saveinterval := s, unlockinterval := some 90 }

/-! ### Attachment collision rename (codimd.py, `_unzipattachments` lines 90-96) -/

/-- Python `random.randint(a, b)`: the outcomes are the integers from `a` to
`b`, both ends included. -/
def pyRandint (a b : Nat) : List Nat := List.range' a (b + 1 - a)

/-- codimd.py lines 93-94: `name, ext = os.path.splitext(fname)` followed by
`fname = name + '_' + chr(r) + ext` for a draw `r` of `randint(65, 65+26)`. -/
def collisionRename (fname : String) (r : Nat) : String :=
  let ne := splitext fname
  ne.1 ++ "_" ++ (Char.ofNat r).toString ++ ne.2

/-- Left-to-right non-overlapping replacement scan of Python
`bytes.replace`; the fuel argument (instantiated with the text length) makes
the recursion structural. -/
def replaceListAux (fuel : Nat) (s pat rep : List Char) : List Char :=
  match fuel, s with
  | 0, s => s
  | _, [] => []
  | fuel' + 1, c :: rest =>
      if pat ≠ [] && pat.isPrefixOf (c :: rest) then
        rep ++ replaceListAux fuel' ((c :: rest).drop pat.length) pat rep
      else c :: replaceListAux fuel' rest pat rep

/-- Python `s.replace(old, new)` for a non-empty `old`. -/
def pyReplace (s old new : String) : String :=
  ⟨replaceListAux s.toList.length s.toList old.toList new.toList⟩

/-- codimd.py line 96: `mddoc = mddoc.replace(zipinfo.filename, fname)` —
rewrite every reference to the old attachment name, returning the rewritten
document together with the new name. -/
def collisionRewrite (mddoc fname : String) (r : Nat) : String × String :=
  let newf := collisionRename fname r
  (pyReplace mddoc fname newf, newf)

/-! ### Shared state of the bridge (wopibridge.py) -/

/-- Python exceptions that escape the modelled functions. -/
inductive PyErr where
  | typeError
  | unicodeDecodeError
deriving DecidableEq, Repr

/-- WOPI lock structure (spec §3.2), as decoded from the storage side. -/
structure WopiLock where
  docid : String
  filename : String
  digest : String
  app : String
  toclose : Dict String Bool
deriving DecidableEq, Repr

/-- Outcome of a `wopi.getlock` / `wopi.relock` call, as seen by the bridge. -/
inductive LockResult where
  | ok (lock : WopiLock)
  | invalidLock (reason : String)
deriving DecidableEq, Repr

/-- Modelled from the spec: `wopiclient.jsonify(msg)` (spec §4.1) wraps a
message into a JSON body; `wopiclient.py` is not part of the sources under
verification.  Only injectivity in `msg` matters to the claims. -/
def jsonify (msg : String) : String :=
  "\x7b\"message\": \"" ++ msg ++ "\"\x7d"

/-- Value dynamically stored into `WB.saveresponses[wopisrc]`: normally a
`(body, http-status)` pair, but line 384 of wopibridge.py can store a WOPI
lock structure. -/
inductive SRVal where
  | resp (body : String) (status : Nat)
  | lockVal (lock : WopiLock)
deriving DecidableEq, Repr

/-- Record of `WB.openfiles`, wopibridge.py lines 69-72 and 251-255. -/
structure OpenFile where
  acctok : String
  tosave : Bool
  lastsave : Int
  toclose : Dict String Bool
  docid : Option String
deriving DecidableEq, Repr

/-- `BRIDGE_EXT_PLUGINS`, wopibridge.py line 47. -/
def bridgeExtPlugins : Dict String String :=
  [("md", "codimd"), ("zmd", "codimd"), ("mds", "codimd"), ("epd", "etherpad")]

/-- `_intersection`, wopibridge.py lines 341-343:
`functools.reduce(lambda x, y: x and y, list(boolsd.values()))`; `reduce`
without an initializer raises `TypeError` on an empty sequence. -/
def intersectionB (boolsd : Dict String Bool) : Except PyErr Bool :=
  match dictValues boolsd with
  | [] => .error .typeError
  | v :: vs => .ok (vs.foldl (fun x y => x && y) v)

/-- `_union`, wopibridge.py lines 345-347, with the same `reduce` behaviour. -/
def unionB (boolsd : Dict String Bool) : Except PyErr Bool :=
  match dictValues boolsd with
  | [] => .error .typeError
  | v :: vs => .ok (vs.foldl (fun x y => x || y) v)

/-! ### The save-dirty phase (`SaveThread.savedirty`, wopibridge.py 373-406)

Outbound WOPI and adapter calls are oracle inputs; the mutations of the open
file record, the sequence of values written to `WB.saveresponses[wopisrc]`,
the number of relock and `savetostorage` calls, and any Python exception that
escapes to the `SaveThread.run` catch-all are recorded in the output. -/

structure SaveDirtyEnv where
  getlockResult : LockResult
  relockResult : LockResult
  /-- result of `WB.plugins[app].savetostorage(...)`; `.error` models the
  adapter raising an uncaught exception. -/
  stsResult : Except PyErr (String × Nat)
  now : Int
deriving Repr

structure SaveDirtyOut where
  openfile : OpenFile
  /-- values assigned to `WB.saveresponses[wopisrc]`, in program order -/
  srWrites : List SRVal
  /-- the `return wopilock` value (`none` models Python `None`) -/
  lockOut : Option WopiLock
  relockAttempts : Nat
  stsCalls : Nat
  /-- exception propagating out of `savedirty`, if any -/
  exn : Option PyErr
deriving DecidableEq, Repr

/-- Lines 395-405: look up the app tag of the lock in `BRIDGE_EXT_PLUGINS`;
unknown tags park a 400 response, known ones dispatch `savetostorage` and park
its result, updating `lastsave` and `tosave`. -/
def savedirtyDispatch (env : SaveDirtyEnv) (openfile : OpenFile) (wopilock : WopiLock)
    (prior : List SRVal) (relocks : Nat) : SaveDirtyOut :=
  match dictGet bridgeExtPlugins wopilock.app with
  | none =>
      { openfile := openfile,
        srWrites := prior ++ [.resp (jsonify "Unrecognized app for this file") 400],
        lockOut := some wopilock, relockAttempts := relocks, stsCalls := 0, exn := none }
  | some _ =>
      match env.stsResult with
      | .ok r =>
          { openfile := { openfile with lastsave := env.now, tosave := false },
            srWrites := prior ++ [.resp r.1 r.2],
            lockOut := some wopilock, relockAttempts := relocks, stsCalls := 1, exn := none }
      | .error e =>
          { openfile := openfile, srWrites := prior,
            lockOut := none, relockAttempts := relocks, stsCalls := 1, exn := some e }

/-- `SaveThread.savedirty`, wopibridge.py lines 373-406. -/
def savedirty (env : SaveDirtyEnv) (openfile : OpenFile) (saveinterval : Int) :
    SaveDirtyOut :=
  if openfile.tosave then
    match intersectionB openfile.toclose with
    | .error e =>
        { openfile := openfile, srWrites := [], lockOut := none,
          relockAttempts := 0, stsCalls := 0, exn := some e }
    | .ok allclosed =>
        if allclosed || decide (openfile.lastsave < env.now - saveinterval) then
          match env.getlockResult with
          | .ok wopilock => savedirtyDispatch env openfile wopilock [] 0
          | .invalidLock _ =>
              match env.relockResult with
              | .ok wopilock =>
                  -- line 384: `wopilock = WB.saveresponses[wopisrc] = wopi.relock(...)`
                  savedirtyDispatch env openfile wopilock [.lockVal wopilock] 1
              | .invalidLock ile =>
                  { openfile := { openfile with
                        lastsave := env.now, tosave := false,
                        toclose := [("invalid-lock", true)] },
                    srWrites := [.resp (jsonify ile) 500],
                    lockOut := none, relockAttempts := 1, stsCalls := 0, exn := none }
        else
          { openfile := openfile, srWrites := [], lockOut := none,
            relockAttempts := 0, stsCalls := 0, exn := none }
  else
    { openfile := openfile, srWrites := [], lockOut := none,
      relockAttempts := 0, stsCalls := 0, exn := none }

/-! ### The cleanup phase (`SaveThread.cleanup`, wopibridge.py 425-456) -/

structure CleanupEnv where
  getlockResult : LockResult
  now : Int
deriving Repr

structure CleanupOut where
  /-- the record after the phase; `none` models `del WB.openfiles[wopisrc]` -/
  openfileAfter : Option OpenFile
  exn : Option PyErr
  unlockCalls : Nat
  refreshCalls : Nat
deriving DecidableEq, Repr

/-- `SaveThread.cleanup`, wopibridge.py lines 425-456.  `lockIn` is the lock
returned by the earlier phases of the cycle (`None` forces a fresh
`getlock`). -/
def cleanup (env : CleanupEnv) (openfile : OpenFile) (lockIn : Option WopiLock)
    (unlockinterval : Int) : CleanupOut :=
  match unionB openfile.toclose with
  | .error e =>
      { openfileAfter := some openfile, exn := some e, unlockCalls := 0, refreshCalls := 0 }
  | .ok anyclosed =>
    if anyclosed && !openfile.tosave then
      match (match lockIn with | some l => LockResult.ok l | none => env.getlockResult) with
      | .invalidLock _ =>
          if openfile.lastsave < env.now - unlockinterval then
            { openfileAfter := none, exn := none, unlockCalls := 0, refreshCalls := 0 }
          else
            { openfileAfter := some openfile, exn := none, unlockCalls := 0, refreshCalls := 0 }
      | .ok wopilock =>
          -- lines 440-441: reconcile keyed on the lock's toclose
          let newtc : Dict String Bool :=
            wopilock.toclose.map
              (fun p => (p.1, p.2 || ((dictGet openfile.toclose p.1).getD false)))
          let upd := { openfile with toclose := newtc }
          match intersectionB newtc with
          | .error e =>
              { openfileAfter := some upd, exn := some e, unlockCalls := 0, refreshCalls := 0 }
          | .ok allclosed =>
            if allclosed then
              if upd.lastsave < env.now - unlockinterval then
                -- unlock and delete the record regardless of the outcome
                { openfileAfter := none, exn := none, unlockCalls := 1, refreshCalls := 0 }
              else
                { openfileAfter := some upd, exn := none, unlockCalls := 0, refreshCalls := 0 }
            else if newtc = wopilock.toclose then
              { openfileAfter := some upd, exn := none, unlockCalls := 0, refreshCalls := 0 }
            else
              { openfileAfter := some upd, exn := none, unlockCalls := 0, refreshCalls := 1 }
    else
      { openfileAfter := some openfile, exn := none, unlockCalls := 0, refreshCalls := 0 }

/-! ### Registry transitions (`/open`, `/save` and the coordinator phases) -/

abbrev Registry := Dict String OpenFile

/-- `appsave` registry mutation, wopibridge.py lines 298-308: an existing
record gets `tosave := true` and `toclose[shorttok] := isclose`; a missing one
is repopulated. -/
def appsaveUpdate (r : Registry) (wopisrc acctok : String) (isclose : Bool)
    (docid : Option String) (now saveinterval : Int) : Registry :=
  match dictGet r wopisrc with
  | some of =>
      dictSet r wopisrc
        { of with tosave := true, toclose := dictSet of.toclose (shorttok acctok) isclose }
  | none =>
      dictSet r wopisrc
        { acctok := acctok, tosave := true, lastsave := now - saveinterval,
          toclose := [(shorttok acctok, isclose)], docid := docid }

/-- `appopen` registry mutation, wopibridge.py lines 246-255: an existing
record adopts the new access token and the current lock's toclose map; a new
record starts with `toclose = {shorttok: False}`. -/
def appopenUpdate (r : Registry) (wopisrc acctok : String) (lockToclose : Dict String Bool)
    (lockDocid : String) (now saveinterval : Int) : Registry :=
  match dictGet r wopisrc with
  | some of =>
      dictSet r wopisrc { of with acctok := acctok, toclose := lockToclose }
  | none =>
      dictSet r wopisrc
        { acctok := acctok, tosave := false, lastsave := now - saveinterval,
          toclose := [(shorttok acctok, false)], docid := some lockDocid }

/-- Registry-mutating operations of the handlers and of the three coordinator
phases.  Lock contents observed from storage enter as oracle arguments. -/
inductive RegOp where
  /-- `/open` upsert (lines 246-255) -/
  | opendoc (wopisrc acctok : String) (lockToclose : Dict String Bool)
      (lockDocid : String) (now si : Int)
  /-- `/save` upsert (lines 298-308) -/
  | save (wopisrc acctok : String) (isclose : Bool) (docid : Option String) (now si : Int)
  /-- `savedirty` double-InvalidLock branch (lines 389-393) -/
  | relockFail (wopisrc : String) (now : Int)
  /-- `savedirty` successful dispatch (lines 404-405) -/
  | saveDone (wopisrc : String) (now : Int)
  /-- `closewhenidle` force-close (line 416) -/
  | forceClose (wopisrc : String)
  /-- record deletion (lines 422, 436, 453) -/
  | deleteRec (wopisrc : String)
  /-- `cleanup` reconciliation against the lock's toclose (lines 440-441) -/
  | reconcile (wopisrc : String) (lockToclose : Dict String Bool)

/-- State change of each operation on the registry. -/
def applyOp : RegOp → Registry → Registry
  | .opendoc w a lt ld now si, r => appopenUpdate r w a lt ld now si
  | .save w a c d now si, r => appsaveUpdate r w a c d now si
  | .relockFail w now, r =>
      match dictGet r w with
      | some of =>
          dictSet r w
            { of with lastsave := now, tosave := false, toclose := [("invalid-lock", true)] }
      | none => r
  | .saveDone w now, r =>
      match dictGet r w with
      | some of => dictSet r w { of with lastsave := now, tosave := false }
      | none => r
  | .forceClose w, r =>
      match dictGet r w with
      | some of =>
          dictSet r w { of with toclose := of.toclose.map (fun p => (p.1, true)) }
      | none => r
  | .deleteRec w, r => dictDel r w
  | .reconcile w lt, r =>
      match dictGet r w with
      | some of =>
          dictSet r w
            { of with toclose := lt.map (fun p => (p.1, p.2 || ((dictGet of.toclose p.1).getD false))) }
      | none => r

/-- Modelled from the spec: well-formedness of the oracle lock contents.
`wopiclient.py` is outside the sources under verification; per spec §3.2 and
§4.3.1 step 7, every lock this bridge generates carries a toclose map
initialised to a singleton, and `refreshlock` only adds entries, so the
toclose map of any lock observed from storage is non-empty. -/
def RegOpOK : RegOp → Prop
  | .opendoc _ _ lt _ _ _ => lt ≠ []
  | .reconcile _ lt => lt ≠ []
  | _ => True

/-- Registry states reachable from the empty registry by handler and
coordinator operations. -/
inductive Reachable : Registry → Prop where
  | init : Reachable []
  | step (r : Registry) (op : RegOp) : Reachable r → RegOpOK op → Reachable (applyOp op r)

/-- Spec §8 invariant 1: every record in the registry has non-empty toclose. -/
def TocloseNonempty (r : Registry) : Prop :=
  ∀ w of, dictGet r w = some of → of.toclose ≠ []

/-! ### Document id generation (`_gendocid`, wopibridge.py 149-152) -/

/-- Python `s.split(sep)` over character lists: explicit groups between
separator occurrences (the empty string yields one empty group). -/
def splitChars (sep : Char) : List Char → List (List Char)
  | [] => [[]]
  | c :: rest =>
      match splitChars sep rest with
      | [] => [[]]
      | g :: gs => if c = sep then [] :: g :: gs else (c :: g) :: gs

/-- Python `wopisrc.split('/')[-1]`. -/
def lastSegment (w : String) : String := ⟨(splitChars '/' w.toList).getLastD []⟩

/-- Alphabet of `base64.urlsafe_b64encode`. -/
def b64table : List Char :=
  "ABCDEFGHIJKLMNOPQRSTUVWXYZabcdefghijklmnopqrstuvwxyz0123456789-_".toList

def b64char (n : Nat) : Char := b64table.getD n '='

/-- `base64.urlsafe_b64encode` over a byte list: three bytes become four
alphabet characters; a final group of one or two bytes is padded with `=`. -/
def b64encodeList : List (Fin 256) → List Char
  | [] => []
  | [a] => [b64char (a.val / 4), b64char (a.val % 4 * 16), '=', '=']
  | [a, b] => [b64char (a.val / 4), b64char (a.val % 4 * 16 + b.val / 16),
               b64char (b.val % 16 * 4), '=']
  | a :: b :: c :: rest =>
      b64char (a.val / 4) :: b64char (a.val % 4 * 16 + b.val / 16) ::
      b64char (b.val % 16 * 4 + c.val / 64) :: b64char (c.val % 64) :: b64encodeList rest

/-- `_gendocid`, wopibridge.py lines 149-152: HMAC-SHA1 of the last path
segment of the wopisrc under the bridge secret, urlsafe-base64 encoded, with
the final character (`[:-1]`) removed.  The HMAC itself is an abstract
function argument producing a digest byte list. -/
def gendocid (hmacSha1 : String → String → List (Fin 256)) (secret w : String) : String :=
  ⟨(b64encodeList (hmacSha1 secret (lastSegment w))).dropLast⟩

/-- Removal of every trailing `=` padding character (the spec's reading of
the `[:-1]` slice). -/
def stripPadding (s : String) : String :=
  ⟨(s.toList.reverse.dropWhile (fun c => c == '=')).reverse⟩

/-! ### UTF-8 decoding (Python `bytes.decode()`, strict errors) -/

/-- Continuation byte of a UTF-8 sequence. -/
def contB (b : Nat) : Bool := 0x80 ≤ b && b ≤ 0xBF

/-- Validity of a byte list under Python's strict UTF-8 decoder (RFC 3629:
no overlong forms, no surrogates, no code points above U+10FFFF, no
truncated final sequence). -/
def validUtf8 : List Nat → Bool
  | [] => true
  | b :: rest =>
      if b ≤ 0x7F then validUtf8 rest
      else if b ≤ 0xC1 then false
      else if b ≤ 0xDF then
        match rest with
        | b2 :: r => contB b2 && validUtf8 r
        | [] => false
      else if b ≤ 0xEF then
        match rest with
        | b2 :: b3 :: r =>
            (if b = 0xE0 then (0xA0 ≤ b2 && b2 ≤ 0xBF : Bool)
             else if b = 0xED then (0x80 ≤ b2 && b2 ≤ 0x9F : Bool)
             else contB b2) && contB b3 && validUtf8 r
        | _ => false
      else if b ≤ 0xF4 then
        match rest with
        | b2 :: b3 :: b4 :: r =>
            (if b = 0xF0 then (0x90 ≤ b2 && b2 ≤ 0xBF : Bool)
             else if b = 0xF4 then (0x80 ≤ b2 && b2 ≤ 0x8F : Bool)
             else contB b2) && contB b3 && contB b4 && validUtf8 r
        | _ => false
      else false

/-- UTF-8 bytes of an ASCII string literal. -/
def asciiBytes (s : String) : List Nat := s.toList.map Char.toNat

/-- `_isslides`, codimd.py lines 106-108: decode the first 9, 8 and 16 bytes
in turn, comparing to the ASCII slide signatures; a slice that is not valid
UTF-8 raises `UnicodeDecodeError` (decoding is injective, so equality with an
ASCII literal is equality with its bytes). -/
def isslides (doc : List Nat) : Except PyErr Bool :=
  if !validUtf8 (doc.take 9) then .error .unicodeDecodeError
  else if doc.take 9 = asciiBytes "---\ntitle" then .ok true
  else if !validUtf8 (doc.take 8) then .error .unicodeDecodeError
  else if doc.take 8 = asciiBytes "---\ntype" then .ok true
  else if !validUtf8 (doc.take 16) then .error .unicodeDecodeError
  else .ok (doc.take 16 = asciiBytes "---\nslideOptions")

/-- Modelled from the spec: `wopiclient.generatelock` (spec §4.1 and §4.3.1
step 7; `wopiclient.py` is not among the sources): a fresh lock carrying the
docid, the storage filename, the digest, the app tag and a close-map
initialised to the caller's short token mapped to false. -/
def generatelock (docid baseFileName digest app acctok : String) : WopiLock :=
  { docid := docid, filename := baseFileName, digest := digest, app := app,
    toclose := [(shorttok acctok, false)] }

/-! ### `loadfromstorage` (codimd.py 125-190) -/

structure LoadEnv where
  /-- WOPI GetFile status (line 128) -/
  wopiGetStatus : Nat
  /-- WOPI GetFile content bytes -/
  wopiGetContent : List Nat
  /-- `filemd['BaseFileName']` -/
  baseFileName : String
  /-- the `.md` member produced by `_unzipattachments` for a bundle -/
  unzipResult : List Nat
  /-- status of `POST /new?mode=locked` (read-only path) -/
  newStatus : Nat
  /-- redirect path of the `POST /new` response -/
  newLocationPath : String
  /-- status of `HEAD /<docid>` -/
  headStatus : Nat
  /-- redirect path of the `HEAD /<docid>` response -/
  headLocationPath : String
  /-- status of `PUT /api/notes/<docid>` -/
  putStatus : Nat
  /-- `hashlib.sha1(...).hexdigest()` as an abstract function -/
  sha1hex : List Nat → String

/-- Termination of `loadfromstorage` at the adapter's public interface. -/
inductive LoadOutcome where
  | ok (lock : WopiLock)
  | appFailure
  | valueError (status : Nat)
  | unicodeDecodeError
deriving DecidableEq, Repr

/-- `loadfromstorage`, codimd.py lines 125-190.  A non-200 GetFile raises
`ValueError(res.status_code)` (line 130); on the read-write path the document
is decoded for the JSON `PUT` body (line 176) before the request; the final
`generatelock` call decodes prefixes through `_isslides` (line 190). -/
def loadfromstorage (env : LoadEnv) (acctok : String) (docid : Option String) :
    LoadOutcome :=
  if env.wopiGetStatus ≠ 200 then .valueError env.wopiGetStatus
  else
    let wasbundle := (splitext env.baseFileName).2 = ".zmd"
    let mddoc := if wasbundle then env.unzipResult else env.wopiGetContent
    let digest := env.sha1hex mddoc
    let docidResult : Except LoadOutcome String :=
      match docid with
      | none =>
          if env.newStatus ≠ 302 then .error .appFailure
          else .ok (lastSegment env.newLocationPath)
      | some d =>
          if env.headStatus ≠ 200 ∧ env.headStatus ≠ 302 then .error .appFailure
          else
            let d2 := if env.headStatus = 302 then lastSegment env.headLocationPath else d
            if !validUtf8 mddoc then .error .unicodeDecodeError
            else if env.putStatus = 403 then .ok d2
            else if env.putStatus ≠ 200 then .error .appFailure
            else .ok d2
    match docidResult with
    | .error o => o
    | .ok d =>
        match isslides mddoc with
        | .error _ => .unicodeDecodeError
        | .ok sl =>
            .ok (generatelock d env.baseFileName digest (if sl then "mds" else "md") acctok)

/-! ### `savetostorage` (codimd.py 220-263) -/

structure StsEnv where
  /-- `_fetchfromcodimd` outcome: `.error` is `AppFailure`, `.ok` the bytes -/
  fetchResult : Except Unit (List Nat)
  /-- `hashlib.sha1(...).hexdigest()` as an abstract function -/
  sha1hex : List Nat → String
  /-- bundle bytes produced by `_getattachments` (`none` = no attachments) -/
  attBundle : Option (List Nat)
  /-- deferred attachment-error response from `_getattachments` -/
  attResponse : Option (String × Nat)
  /-- `wopi.handleputfile` result (`some` = error reply to return) -/
  putfileReply : Option (String × Nat)
  /-- `wopi.saveas` result -/
  saveasResult : String × Nat

structure StsOut where
  result : String × Nat
  putfileCalls : Nat
  refreshlockCalls : Nat
  /-- digest passed to `wopi.refreshlock` -/
  refreshDigest : Option String
  saveasCalls : Nat
deriving DecidableEq, Repr

/-- `savetostorage`, codimd.py lines 220-263: fetch from the app; on close
with a clean digest compare SHA-1 and short-circuit with `('{}', 202)`;
otherwise bundle attachments and either PutFile in place (refreshing the lock
digest) or saveAs on a format switch. -/
def savetostorage (env : StsEnv) (isclose : Bool) (wopilock : WopiLock) : StsOut :=
  match env.fetchResult with
  | .error _ =>
      { result := (jsonify "Could not save file, failed to fetch document from CodiMD", 500),
        putfileCalls := 0, refreshlockCalls := 0, refreshDigest := none, saveasCalls := 0 }
  | .ok mddoc =>
    let check := isclose && wopilock.digest != "dirty"
    if check && (env.sha1hex mddoc == wopilock.digest) then
      { result := ("\x7b\x7d", 202), putfileCalls := 0, refreshlockCalls := 0,
        refreshDigest := none, saveasCalls := 0 }
    else
      let hacc : Option String := if check then some (env.sha1hex mddoc) else none
      let wasbundle := (splitext wopilock.filename).2 = ".zmd"
      let bundlefile := env.attBundle
      if (xor wasbundle bundlefile.isNone) || !isclose then
        match env.putfileReply with
        | some reply =>
            { result := reply, putfileCalls := 1, refreshlockCalls := 0,
              refreshDigest := none, saveasCalls := 0 }
        | none =>
            let hacc2 := if isclose && (wopilock.digest == "dirty")
              then some (env.sha1hex mddoc) else hacc
            { result := (env.attResponse.getD (jsonify "File saved successfully", 200)),
              putfileCalls := 1, refreshlockCalls := 1,
              refreshDigest := some (hacc2.getD "dirty"), saveasCalls := 0 }
      else
        { result := env.saveasResult, putfileCalls := 0, refreshlockCalls := 0,
          refreshDigest := none, saveasCalls := 1 }


/-! ## Theorems -/

/-! ### Dictionary lemmas -/

theorem dictGet_set [DecidableEq α] (d : Dict α β) (k : α) (v : β) (w : α) :
    dictGet (dictSet d k v) w = if k = w then some v else dictGet d w := by
  induction d with
  | nil => simp [dictGet, dictSet]
  | cons p rest ih =>
    obtain ⟨k', v'⟩ := p
    by_cases hk : k' = k
    · subst hk
      by_cases hw : k' = w
      · simp [dictSet, dictGet, hw]
      · simp [dictSet, dictGet, hw]
    · by_cases hw : k' = w
      · subst hw
        simp only [dictSet, if_neg hk, dictGet, if_pos rfl]
        rw [if_neg (Ne.symm hk)]
        simp [dictGet]
      · simp [dictSet, hk, dictGet, hw, ih]

theorem dictGet_set_self [DecidableEq α] (d : Dict α β) (k : α) (v : β) :
    dictGet (dictSet d k v) k = some v := by
  simp [dictGet_set]

theorem dictGet_set_ne [DecidableEq α] (d : Dict α β) (k w : α) (v : β) (h : w ≠ k) :
    dictGet (dictSet d k v) w = dictGet d w := by
  rw [dictGet_set, if_neg (Ne.symm h)]

theorem dictGet_set_cases [DecidableEq α] (d : Dict α β) (k : α) (v : β) (w : α) (x : β)
    (h : dictGet (dictSet d k v) w = some x) :
    (w = k ∧ x = v) ∨ (w ≠ k ∧ dictGet d w = some x) := by
  by_cases hw : w = k
  · subst hw
    rw [dictGet_set_self] at h
    exact Or.inl ⟨rfl, (Option.some_inj.mp h).symm⟩
  · rw [dictGet_set_ne d k w v hw] at h
    exact Or.inr ⟨hw, h⟩

theorem dictGet_del [DecidableEq α] (d : Dict α β) (k w : α) :
    dictGet (dictDel d k) w = if w = k then none else dictGet d w := by
  induction d with
  | nil => simp [dictDel, dictGet]
  | cons p rest ih =>
    obtain ⟨k', v'⟩ := p
    by_cases hk : k' = k
    · subst hk
      by_cases hw : w = k'
      · subst hw
        simp [dictDel, dictGet, ih]
      · have hkw : ¬ k' = w := fun h => hw h.symm
        simp [dictDel, dictGet, ih, hw, hkw]
    · by_cases hw : k' = w
      · subst hw
        simp [dictDel, dictGet, hk]
      · simp [dictDel, dictGet, hk, hw, ih]

theorem dictGet_del_some [DecidableEq α] (d : Dict α β) (k w : α) (x : β)
    (h : dictGet (dictDel d k) w = some x) : dictGet d w = some x := by
  rw [dictGet_del] at h
  by_cases hw : w = k
  · simp [hw] at h
  · simpa [hw] using h

theorem dictSet_ne_nil [DecidableEq α] (d : Dict α β) (k : α) (v : β) :
    dictSet d k v ≠ [] := by
  cases d with
  | nil => simp [dictSet]
  | cons p rest =>
    by_cases h : p.1 = k <;> simp [dictSet, h]

/-! ### C1: APP_UNLOCK_INTERVAL configuration -/

/-- C1: setting `APP_UNLOCK_INTERVAL` to an integer does **not** configure the
unlock interval; wopibridge.py line 101 assigns the parsed value to
`cls.saveinterval`, overriding `APP_SAVE_INTERVAL`, and `cls.unlockinterval`
is left unassigned.  Only when the variable is unset does the `except` branch
set the unlock interval to its 90-second default. -/
theorem claim1_unlock_interval_env_misassigned :
    initIntervals none (some 100) =
      { saveinterval := 100, unlockinterval := none } ∧
    initIntervals (some 300) (some 100) =
      { saveinterval := 100, unlockinterval := none } ∧
    initIntervals (some 300) none =
      { saveinterval := 300, unlockinterval := some 90 } :=
  ⟨rfl, rfl, rfl⟩

/-! ### C2: persistence of a close signal in `toclose` -/

/-- C2, counterexample: a `/save` with `close=true` sets the short-token's
entry of `toclose` to `true`, but a later `/save` with `close=false` from the
same token overwrites it with `false` while the record still exists
(wopibridge.py line 301 is a plain assignment, not a disjunction). -/
theorem claim2_counterexample_close_reset :
    (dictGet (appsaveUpdate [] "w" "t" true (some "d") 0 200) "w").bind
        (fun of => dictGet of.toclose (shorttok "t")) = some true ∧
    (dictGet (appsaveUpdate (appsaveUpdate [] "w" "t" true (some "d") 0 200)
          "w" "t" false (some "d") 5 200) "w").bind
        (fun of => dictGet of.toclose (shorttok "t")) = some false :=
  ⟨rfl, rfl⟩

/-- C2, amended: a `true` entry of `toclose` persists under every subsequent
`/save` that comes from a different short-token, targets a different document,
or itself carries `close=true`; only a `/save` with `close=false` from the
same short-token on the same document resets it. -/
theorem claim2_close_persists_amended
    (r : Registry) (w a : String)
    (h : (dictGet r w).bind (fun of => dictGet of.toclose (shorttok a)) = some true)
    (w' b : String) (c : Bool) (d : Option String) (now si : Int)
    (hcase : shorttok b ≠ shorttok a ∨ w' ≠ w ∨ c = true) :
    (dictGet (appsaveUpdate r w' b c d now si) w).bind
        (fun of => dictGet of.toclose (shorttok a)) = some true := by
  by_cases hww : w' = w
  · subst hww
    cases hr : dictGet r w' with
    | none => rw [hr] at h; simp at h
    | some of =>
      rw [hr] at h
      simp only [Option.some_bind] at h
      unfold appsaveUpdate
      rw [hr, dictGet_set_self]
      simp only [Option.some_bind]
      by_cases hb : shorttok b = shorttok a
      · rcases hcase with hc | hc | hc
        · exact absurd hb hc
        · exact absurd rfl hc
        · subst hc; rw [hb, dictGet_set_self]
      · rw [dictGet_set_ne _ _ _ _ (fun he => hb he.symm)]
        exact h
  · unfold appsaveUpdate
    cases hr : dictGet r w' with
    | some of =>
      rw [dictGet_set_ne _ _ _ _ (fun he => hww he.symm)]
      exact h
    | none =>
      rw [dictGet_set_ne _ _ _ _ (fun he => hww he.symm)]
      exact h

/-- C2, witness: a close signal from token `t` survives a `/save` with
`close=false` from a different token `u`. -/
theorem claim2_close_persists_witness :
    (dictGet (appsaveUpdate
        [("w", { acctok := "t", tosave := true, lastsave := 0,
                 toclose := [("t", true)], docid := none })]
        "w" "u" false none 0 200) "w").bind
      (fun of => dictGet of.toclose (shorttok "t")) = some true :=
  claim2_close_persists_amended
    [("w", { acctok := "t", tosave := true, lastsave := 0,
             toclose := [("t", true)], docid := none })]
    "w" "t" rfl "w" "u" false none 0 200 (Or.inl (by decide))

/-! ### C3: attachment collision rename alphabet -/

/-- C3: `chr(randint(65, 65+26))` in codimd.py line 94 can produce `chr(91)`
= `'['`, which is not an uppercase letter (`randint` includes both bounds),
so the renamed attachment is not always of the form `name_<A-Z>.ext`; the
reference rewrite itself does happen for that outcome. -/
theorem claim3_collision_rename_not_a_letter :
    91 ∈ pyRandint 65 (65 + 26) ∧
    collisionRename "img.png" 91 = "img_[.png" ∧
    'Z' < '[' ∧
    collisionRewrite "text /uploads/img.png text" "img.png" 91 =
      ("text /uploads/img_[.png text", "img_[.png") := by
  refine ⟨by decide, by decide, by decide, ?_⟩
  rfl

/-! ### C4: shape of the values stored in `WB.saveresponses` -/

/-- Lock used by the C4 scenario. -/
def lockC4 : WopiLock :=
  { docid := "d", filename := "f.md", digest := "dirty", app := "md",
    toclose := [("t", true)] }

/-- Save-dirty oracle for the C4 scenario: `getlock` raises `InvalidLock`,
`relock` succeeds, and the adapter's `savetostorage` raises (for instance the
`UnicodeDecodeError` of `mddoc.decode()` in codimd.py line 241). -/
def envC4 : SaveDirtyEnv :=
  { getlockResult := .invalidLock "409", relockResult := .ok lockC4,
    stsResult := .error .unicodeDecodeError, now := 100 }

/-- Record for the C4 scenario. -/
def ofC4 : OpenFile :=
  { acctok := "t", tosave := true, lastsave := 0, toclose := [("t", true)],
    docid := some "d" }

/-- C4: line 384 of wopibridge.py (`wopilock = WB.saveresponses[wopisrc] =
wopi.relock(...)`) stores the WOPI lock structure itself — not an
`(http-status, body)` pair — into the save-response map; when the subsequent
adapter dispatch raises, that lock value is the final content of the map for
this document. -/
theorem claim4_saveresponses_holds_lock :
    (savedirty envC4 ofC4 200).srWrites = [SRVal.lockVal lockC4] ∧
    (savedirty envC4 ofC4 200).exn = some PyErr.unicodeDecodeError :=
  ⟨rfl, rfl⟩

/-! ### C5: at most one relock, then park and tag -/

/-- Every run of the save-dirty phase performs at most one relock attempt. -/
theorem relockAttempts_le_one (env : SaveDirtyEnv) (openfile : OpenFile) (si : Int) :
    (savedirty env openfile si).relockAttempts ≤ 1 := by
  unfold savedirty savedirtyDispatch
  repeat' split
  all_goals simp

/-- C5: when `getlock` raises `InvalidLock` during the save-dirty phase and
the single relock attempt also raises, the coordinator parks a 500 response,
clears `tosave`, replaces the close-map with the sentinel
`{"invalid-lock": true}`, performs no `savetostorage` call, and returns
`None`; at most one relock attempt happens in any run. -/
theorem claim5_single_relock_then_park
    (env : SaveDirtyEnv) (of : OpenFile) (si : Int) (r1 r2 : String)
    (hget : env.getlockResult = .invalidLock r1)
    (hrel : env.relockResult = .invalidLock r2)
    (hts : of.tosave = true)
    (hne : of.toclose ≠ [])
    (hlast : of.lastsave < env.now - si) :
    (savedirty env of si).relockAttempts = 1 ∧
    (savedirty env of si).srWrites = [SRVal.resp (jsonify r2) 500] ∧
    (savedirty env of si).openfile.tosave = false ∧
    (savedirty env of si).openfile.toclose = [("invalid-lock", true)] ∧
    (savedirty env of si).stsCalls = 0 ∧
    (savedirty env of si).lockOut = none ∧
    (∀ (env' : SaveDirtyEnv) (of' : OpenFile) (si' : Int),
        (savedirty env' of' si').relockAttempts ≤ 1) := by
  obtain ⟨p, tl, htc⟩ := List.exists_cons_of_ne_nil hne
  have hsd : savedirty env of si =
      { openfile := { of with
            lastsave := env.now, tosave := false,
            toclose := [("invalid-lock", true)] },
        srWrites := [.resp (jsonify r2) 500],
        lockOut := none, relockAttempts := 1, stsCalls := 0, exn := none } := by
    unfold savedirty
    rw [htc]
    simp [intersectionB, dictValues, hts, hget, hrel, hlast]
  refine ⟨?_, ?_, ?_, ?_, ?_, ?_, relockAttempts_le_one⟩ <;> rw [hsd]

/-- Save-dirty oracle for the C5 witness: both `getlock` and `relock` raise. -/
def envC5 : SaveDirtyEnv :=
  { getlockResult := .invalidLock "404", relockResult := .invalidLock "404",
    stsResult := .ok ("x", 200), now := 1000 }

/-- Record for the C5 witness. -/
def ofC5 : OpenFile :=
  { acctok := "t", tosave := true, lastsave := 0, toclose := [("t", false)],
    docid := some "d" }

/-- C5, witness at a concrete double-InvalidLock scenario. -/
theorem claim5_witness :
    (savedirty envC5 ofC5 200).relockAttempts = 1 ∧
    (savedirty envC5 ofC5 200).srWrites = [SRVal.resp (jsonify "404") 500] ∧
    (savedirty envC5 ofC5 200).openfile.tosave = false ∧
    (savedirty envC5 ofC5 200).openfile.toclose = [("invalid-lock", true)] ∧
    (savedirty envC5 ofC5 200).stsCalls = 0 ∧
    (savedirty envC5 ofC5 200).lockOut = none ∧
    (∀ (env' : SaveDirtyEnv) (of' : OpenFile) (si' : Int),
        (savedirty env' of' si').relockAttempts ≤ 1) :=
  claim5_single_relock_then_park envC5 ofC5 200 "404" "404" rfl rfl rfl
    (by decide) (by decide)

/-! ### C6: unchanged file on close is not re-uploaded -/

/-- C6: a `savetostorage` call with `isclose` true, a lock digest that is not
the sentinel `"dirty"`, and a fetched document whose SHA-1 equals the lock
digest returns `('{}', 202)` and performs no WOPI PutFile, no lock refresh
and no saveAs (codimd.py lines 230-237). -/
theorem claim6_unchanged_close_skips_putfile
    (env : StsEnv) (lock : WopiLock) (mddoc : List Nat)
    (hfetch : env.fetchResult = .ok mddoc)
    (hdirty : lock.digest ≠ "dirty")
    (hdig : env.sha1hex mddoc = lock.digest) :
    savetostorage env true lock =
      { result := ("\x7b\x7d", 202), putfileCalls := 0, refreshlockCalls := 0,
        refreshDigest := none, saveasCalls := 0 } := by
  unfold savetostorage
  rw [hfetch]
  simp [hdirty, hdig]

/-- Adapter oracle for the C6 witness: the app returns a document whose hash
matches the lock digest. -/
def envC6 : StsEnv :=
  { fetchResult := .ok [], sha1hex := fun _ => "abc", attBundle := none,
    attResponse := none, putfileReply := none, saveasResult := ("", 0) }

/-- Lock for the C6 witness. -/
def lockC6 : WopiLock :=
  { docid := "d", filename := "f.md", digest := "abc", app := "md",
    toclose := [("t", false)] }

/-- C6, witness at a concrete unchanged-on-close scenario. -/
theorem claim6_witness :
    savetostorage envC6 true lockC6 =
      { result := ("\x7b\x7d", 202), putfileCalls := 0, refreshlockCalls := 0,
        refreshDigest := none, saveasCalls := 0 } :=
  claim6_unchanged_close_skips_putfile envC6 lockC6 [] rfl (by decide) rfl

/-! ### C7: every registry record has a non-empty toclose map -/

/-- C7: in every state reachable by `/open`, `/save` and the coordinator's
three phases (given well-formed non-empty lock close-maps from storage, see
`RegOpOK`), every record of the open-files registry has a non-empty toclose
map. -/
theorem claim7_registry_toclose_nonempty (r : Registry) (h : Reachable r) :
    TocloseNonempty r := by
  induction h with
  | init =>
    intro w of hw
    simp [dictGet] at hw
  | step r' op hr hok ih =>
    intro w of hw
    cases op with
    | opendoc ws a lt ld now si =>
      simp only [applyOp, appopenUpdate] at hw
      cases hg : dictGet r' ws with
      | some of0 =>
        rw [hg] at hw
        rcases dictGet_set_cases _ _ _ _ _ hw with ⟨hwk, hof⟩ | ⟨hnk, hold⟩
        · subst hof; exact hok
        · exact ih w of hold
      | none =>
        rw [hg] at hw
        rcases dictGet_set_cases _ _ _ _ _ hw with ⟨hwk, hof⟩ | ⟨hnk, hold⟩
        · subst hof; simp
        · exact ih w of hold
    | save ws a c d now si =>
      simp only [applyOp, appsaveUpdate] at hw
      cases hg : dictGet r' ws with
      | some of0 =>
        rw [hg] at hw
        rcases dictGet_set_cases _ _ _ _ _ hw with ⟨hwk, hof⟩ | ⟨hnk, hold⟩
        · subst hof; exact dictSet_ne_nil _ _ _
        · exact ih w of hold
      | none =>
        rw [hg] at hw
        rcases dictGet_set_cases _ _ _ _ _ hw with ⟨hwk, hof⟩ | ⟨hnk, hold⟩
        · subst hof; simp
        · exact ih w of hold
    | relockFail ws now =>
      simp only [applyOp] at hw
      cases hg : dictGet r' ws with
      | some of0 =>
        rw [hg] at hw
        rcases dictGet_set_cases _ _ _ _ _ hw with ⟨hwk, hof⟩ | ⟨hnk, hold⟩
        · subst hof; simp
        · exact ih w of hold
      | none =>
        rw [hg] at hw
        exact ih w of hw
    | saveDone ws now =>
      simp only [applyOp] at hw
      cases hg : dictGet r' ws with
      | some of0 =>
        rw [hg] at hw
        rcases dictGet_set_cases _ _ _ _ _ hw with ⟨hwk, hof⟩ | ⟨hnk, hold⟩
        · subst hof
          exact ih ws of0 hg
        · exact ih w of hold
      | none =>
        rw [hg] at hw
        exact ih w of hw
    | forceClose ws =>
      simp only [applyOp] at hw
      cases hg : dictGet r' ws with
      | some of0 =>
        rw [hg] at hw
        rcases dictGet_set_cases _ _ _ _ _ hw with ⟨hwk, hof⟩ | ⟨hnk, hold⟩
        · subst hof
          intro hx
          rw [List.map_eq_nil_iff] at hx
          exact ih ws of0 hg hx
        · exact ih w of hold
      | none =>
        rw [hg] at hw
        exact ih w of hw
    | deleteRec ws =>
      simp only [applyOp] at hw
      exact ih w of (dictGet_del_some _ _ _ _ hw)
    | reconcile ws lt =>
      simp only [applyOp] at hw
      cases hg : dictGet r' ws with
      | some of0 =>
        rw [hg] at hw
        rcases dictGet_set_cases _ _ _ _ _ hw with ⟨hwk, hof⟩ | ⟨hnk, hold⟩
        · subst hof
          intro hx
          rw [List.map_eq_nil_iff] at hx
          exact hok hx
        · exact ih w of hold
      | none =>
        rw [hg] at hw
        exact ih w of hw

/-- Registry state for the C7 witness: one `/save` applied to the empty
registry. -/
def regC7 : Registry := applyOp (RegOp.save "w" "t" true (some "d") 0 200) []

/-- C7, witness: the single record of `regC7` has a non-empty toclose map. -/
theorem claim7_witness :
    ({ acctok := "t", tosave := true, lastsave := -200,
       toclose := [("t", true)], docid := some "d" } : OpenFile).toclose ≠ [] :=
  claim7_registry_toclose_nonempty regC7
    (Reachable.step [] (RegOp.save "w" "t" true (some "d") 0 200)
      Reachable.init trivial)
    "w" _ rfl

/-! ### C8: `_gendocid` depends only on the last path segment -/

/-- Characters of the base64 alphabet are never the padding character. -/
theorem b64char_ne_pad : ∀ n, n < 64 → b64char n ≠ '=' := by decide

/-- Base64 encoding of a byte list whose length is `2 (mod 3)` ends in
exactly one padding character. -/
theorem b64_shape : ∀ (l : List (Fin 256)), l.length % 3 = 2 →
    ∃ cs : List Char, b64encodeList l = cs ++ ['='] ∧ '=' ∉ cs
  | [], h => by simp at h
  | [a], h => by simp at h
  | [a, b], _ => by
    refine ⟨[b64char (a.val / 4), b64char (a.val % 4 * 16 + b.val / 16),
             b64char (b.val % 16 * 4)], rfl, ?_⟩
    have ha := a.isLt
    have hb := b.isLt
    intro hmem
    simp only [List.mem_cons, List.not_mem_nil, or_false] at hmem
    rcases hmem with h1 | h1 | h1 <;>
      exact absurd h1.symm (b64char_ne_pad _ (by omega))
  | a :: b :: c :: rest, h => by
    obtain ⟨cs, hcs, hmem⟩ := b64_shape rest (by
      simp only [List.length_cons] at h
      omega)
    refine ⟨b64char (a.val / 4) :: b64char (a.val % 4 * 16 + b.val / 16) ::
            b64char (b.val % 16 * 4 + c.val / 64) :: b64char (c.val % 64) :: cs, ?_, ?_⟩
    · simp [b64encodeList, hcs]
    · have ha := a.isLt
      have hb := b.isLt
      have hc := c.isLt
      intro hm
      simp only [List.mem_cons] at hm
      rcases hm with h1 | h1 | h1 | h1 | h1
      · exact absurd h1.symm (b64char_ne_pad _ (by omega))
      · exact absurd h1.symm (b64char_ne_pad _ (by omega))
      · exact absurd h1.symm (b64char_ne_pad _ (by omega))
      · exact absurd h1.symm (b64char_ne_pad _ (by omega))
      · exact hmem h1

/-- Dropping leading padding does nothing on a list that contains none. -/
theorem dropWhile_pad_of_not_mem (l : List Char) (h : '=' ∉ l) :
    l.dropWhile (fun c => c == '=') = l := by
  cases l with
  | nil => rfl
  | cons a t =>
    have hne : ¬ (a = '=') := fun he => h (he ▸ List.mem_cons_self a t)
    simp [List.dropWhile_cons, hne]

/-- C8: `_gendocid` (wopibridge.py 149-152) yields the same identifier for
any two wopisrc values with the same substring after the final `/`, and for a
20-byte HMAC-SHA1 digest the `[:-1]` slice is exactly the removal of the
trailing base64 padding. -/
theorem claim8_gendocid_last_segment
    (hm : String → String → List (Fin 256)) (secret w1 w2 : String)
    (hseg : lastSegment w1 = lastSegment w2)
    (hlen : (hm secret (lastSegment w1)).length = 20) :
    gendocid hm secret w1 = gendocid hm secret w2 ∧
    gendocid hm secret w1 =
      stripPadding ⟨b64encodeList (hm secret (lastSegment w1))⟩ := by
  constructor
  · unfold gendocid
    rw [hseg]
  · unfold gendocid stripPadding
    obtain ⟨cs, hcs, hmem⟩ := b64_shape (hm secret (lastSegment w1)) (by rw [hlen])
    rw [hcs]
    have htl : (String.mk (cs ++ ['='])).toList = cs ++ ['='] := rfl
    rw [htl, List.dropLast_concat, List.reverse_append]
    simp only [List.reverse_cons, List.reverse_nil, List.nil_append,
      List.singleton_append, List.dropWhile_cons]
    have hpad : (('=' : Char) == '=') = true := by decide
    rw [if_pos hpad]
    rw [dropWhile_pad_of_not_mem _ (by simpa using hmem), List.reverse_reverse]

/-- Digest oracle for the C8 witness: a constant 20-byte digest. -/
def hmC8 : String → String → List (Fin 256) := fun _ _ => List.replicate 20 0

/-- C8, witness: two wopisrc values sharing the last path segment `b`. -/
theorem claim8_witness :
    gendocid hmC8 "s" "a/b" = gendocid hmC8 "s" "c/b" ∧
    gendocid hmC8 "s" "a/b" =
      stripPadding ⟨b64encodeList (hmC8 "s" (lastSegment "a/b"))⟩ :=
  claim8_gendocid_last_segment hmC8 "s" "a/b" "c/b" (by decide) (by decide)

/-! ### C9: exception surface of `loadfromstorage` -/

/-- Load oracle for the read-write C9 scenario: GetFile succeeds but the
returned bytes (a lone `0xFF`) are not valid UTF-8, so the decode for the
`PUT /api/notes` JSON body raises. -/
def envC9rw : LoadEnv :=
  { wopiGetStatus := 200, wopiGetContent := [255], baseFileName := "doc.md",
    unzipResult := [], newStatus := 0, newLocationPath := "",
    headStatus := 200, headLocationPath := "", putStatus := 200,
    sha1hex := fun _ => "h" }

/-- Load oracle for the read-only C9 scenario: the app accepts the new note,
and the slide-detection prefix decode raises on the same invalid bytes. -/
def envC9ro : LoadEnv :=
  { wopiGetStatus := 200, wopiGetContent := [255], baseFileName := "doc.md",
    unzipResult := [], newStatus := 302, newLocationPath := "/x/n",
    headStatus := 0, headLocationPath := "", putStatus := 0,
    sha1hex := fun _ => "h" }

/-- C9: `loadfromstorage` terminates with exceptions other than `AppFailure`:
every non-200 WOPI GetFile raises `ValueError` carrying the status (codimd.py
line 130), and non-UTF-8 document bytes raise `UnicodeDecodeError` both on the
read-write content decode (line 176) and on the read-only slide-detection
prefix decode (lines 106-108 via line 190), so catching only `AppFailure`
does not catch every load failure. -/
theorem claim9_load_exception_surface :
    (∀ (env : LoadEnv) (acctok : String) (docid : Option String),
        env.wopiGetStatus ≠ 200 →
        loadfromstorage env acctok docid = .valueError env.wopiGetStatus) ∧
    loadfromstorage envC9rw "t" (some "doc") = .unicodeDecodeError ∧
    loadfromstorage envC9ro "t" none = .unicodeDecodeError ∧
    loadfromstorage envC9rw "t" (some "doc") ≠ .appFailure ∧
    loadfromstorage envC9ro "t" none ≠ .appFailure := by
  refine ⟨?_, rfl, rfl, by decide, by decide⟩
  intro env acctok docid h
  unfold loadfromstorage
  rw [if_pos h]

/-- C9, witness: a concrete 404 GetFile surfaces as `ValueError 404`. -/
theorem claim9_witness :
    loadfromstorage { envC9rw with wopiGetStatus := 404 } "t" (some "doc") =
      .valueError 404 :=
  claim9_load_exception_surface.1 { envC9rw with wopiGetStatus := 404 } "t"
    (some "doc") (by decide)

/-! ### C10: partiality of the boolean-map reductions -/

/-- The save-dirty phase only propagates an exception that either is the
`TypeError` of `_intersection` on an empty toclose map or originates in the
adapter's `savetostorage`. -/
theorem savedirty_exn_from_sts
    (env : SaveDirtyEnv) (of : OpenFile) (si : Int) (e : PyErr)
    (hne : of.toclose ≠ []) (hexn : (savedirty env of si).exn = some e) :
    env.stsResult = .error e := by
  obtain ⟨p, tl, htc⟩ := List.exists_cons_of_ne_nil hne
  unfold savedirty at hexn
  by_cases hts : of.tosave
  · rw [htc] at hexn
    simp only [hts, if_true, intersectionB, dictValues, List.map_cons] at hexn
    split at hexn
    · cases hgl : env.getlockResult with
      | ok l =>
        simp only [hgl, savedirtyDispatch] at hexn
        cases hpl : dictGet bridgeExtPlugins l.app with
        | none => simp [hpl] at hexn
        | some pl =>
          simp only [hpl] at hexn
          cases hsts : env.stsResult with
          | ok v => simp [hsts] at hexn
          | error e2 =>
            simp only [hsts, Option.some_inj] at hexn
            rw [hexn]

      | invalidLock r1 =>
        simp only [hgl] at hexn
        cases hrl : env.relockResult with
        | ok l =>
          simp only [hrl, savedirtyDispatch] at hexn
          cases hpl : dictGet bridgeExtPlugins l.app with
          | none => simp [hpl] at hexn
          | some pl =>
            simp only [hpl] at hexn
            cases hsts : env.stsResult with
            | ok v => simp [hsts] at hexn
            | error e2 =>
              simp only [hsts, Option.some_inj] at hexn
              rw [hexn]
        | invalidLock r2 => simp [hrl] at hexn
    · simp at hexn
  · simp [hts] at hexn

/-- The cleanup phase raises no exception when both the record's and the
observed lock's toclose maps are non-empty. -/
theorem cleanup_exn_none
    (env : CleanupEnv) (of : OpenFile) (lockIn : Option WopiLock) (ui : Int)
    (hne : of.toclose ≠ [])
    (hin : ∀ l, lockIn = some l → l.toclose ≠ [])
    (hgl : ∀ l, env.getlockResult = LockResult.ok l → l.toclose ≠ []) :
    (cleanup env of lockIn ui).exn = none := by
  obtain ⟨p, tl, htc⟩ := List.exists_cons_of_ne_nil hne
  cases lockIn with
  | some l' =>
    obtain ⟨q, ql, hql⟩ := List.exists_cons_of_ne_nil (hin l' rfl)
    unfold cleanup
    rw [htc]
    simp only [unionB, dictValues, List.map_cons, hql, intersectionB]
    repeat' split
    all_goals rfl
  | none =>
    unfold cleanup
    rw [htc]
    simp only [unionB, dictValues, List.map_cons]
    split
    · cases hres : env.getlockResult with
      | invalidLock r =>
        simp only [hres]
        split <;> rfl
      | ok l =>
        obtain ⟨q, ql, hql⟩ := List.exists_cons_of_ne_nil (hgl l hres)
        simp only [hres, hql, intersectionB, dictValues, List.map_cons]
        repeat' split
        all_goals rfl
    · rfl

/-- C10: `_intersection` and `_union` raise `TypeError` exactly on the empty
map; on non-empty maps they return the fold of the values, so the save-dirty
and cleanup phases reach no reduction error when the relevant toclose maps
are non-empty, while an empty map makes the per-document cycle abort with the
`TypeError` that the coordinator's catch-all absorbs. -/
theorem claim10_reductions_raise_on_empty :
    intersectionB [] = Except.error PyErr.typeError ∧
    unionB [] = Except.error PyErr.typeError ∧
    (∀ d : Dict String Bool, d ≠ [] →
        (∃ b, intersectionB d = .ok b) ∧ (∃ b, unionB d = .ok b)) ∧
    (∀ (env : SaveDirtyEnv) (of : OpenFile) (si : Int) (e : PyErr),
        of.toclose ≠ [] → (savedirty env of si).exn = some e →
        env.stsResult = .error e) ∧
    (∀ (env : SaveDirtyEnv) (of : OpenFile) (si : Int),
        of.toclose = [] → of.tosave = true →
        (savedirty env of si).exn = some PyErr.typeError) ∧
    (∀ (env : CleanupEnv) (of : OpenFile) (lockIn : Option WopiLock) (ui : Int),
        of.toclose = [] →
        (cleanup env of lockIn ui).exn = some PyErr.typeError) ∧
    (∀ (env : CleanupEnv) (of : OpenFile) (lockIn : Option WopiLock) (ui : Int),
        of.toclose ≠ [] →
        (∀ l, lockIn = some l → l.toclose ≠ []) →
        (∀ l, env.getlockResult = LockResult.ok l → l.toclose ≠ []) →
        (cleanup env of lockIn ui).exn = none) := by
  refine ⟨rfl, rfl, ?_, savedirty_exn_from_sts, ?_, ?_, cleanup_exn_none⟩
  · intro d hd
    obtain ⟨p, tl, htc⟩ := List.exists_cons_of_ne_nil hd
    subst htc
    exact ⟨⟨_, rfl⟩, ⟨_, rfl⟩⟩
  · intro env of si htc hts
    unfold savedirty
    simp [hts, htc, intersectionB, dictValues]
  · intro env of lockIn ui htc
    unfold cleanup
    simp [htc, unionB, dictValues]

/-- Record with an empty toclose map for the C10 witness. -/
def ofC10 : OpenFile :=
  { acctok := "t", tosave := true, lastsave := 0, toclose := [], docid := none }

/-- Save-dirty oracle for the C10 witness. -/
def envC10 : SaveDirtyEnv :=
  { getlockResult := .invalidLock "404", relockResult := .invalidLock "404",
    stsResult := .ok ("x", 200), now := 0 }

/-- C10, witness: the save-dirty phase on an empty toclose map aborts with
the `TypeError` of `_intersection`. -/
theorem claim10_witness :
    (savedirty envC10 ofC10 200).exn = some PyErr.typeError :=
  claim10_reductions_raise_on_empty.2.2.2.2.1 envC10 ofC10 200 rfl rfl



end WopiBridge
